import Mathlib

/-!
Verification development for the `product-hotspot-component` custom element
(src/assets/product-hotspot.js).  The component manages a hover-triggered
dialog: a placement computation over container/trigger/dialog rectangles
(`#calculateDialogPlacement`, lines 101-210), a hover-intent state machine
(`#setupDesktopListeners`, `#handlePointerLeave`, `#handleBreakpointChange`),
and show/close transitions (`showDialog`, `closeDialog`).

Coordinates from `getBoundingClientRect` are embedded as rationals.  Stateful
code is embedded as explicit state passing; the event-driven hover logic is a
step function over an explicit machine state, with DOM event-delivery
constraints (pointerenter and pointerleave alternate, listeners only fire
while attached) encoded as guards of the step function.
-/

namespace ProductHotspot

/-- Spacing constant from line 112: gap between button and dialog. -/
def BUTTON_GAP : ℚ := 10

/-- Spacing constant from line 113: gap from container edges. -/
def CONTAINER_GAP : ℚ := 10

/-- Spacing constant from line 114. -/
def TOTAL_GAP : ℚ := BUTTON_GAP + CONTAINER_GAP

/-- A DOMRect as consumed by the placement code: the component reads
`left`, `right`, `top`, `bottom`, `width` and `height` of the rectangles
returned by `getBoundingClientRect`. -/
structure Rect where
  left : ℚ
  right : ℚ
  top : ℚ
  bottom : ℚ
  width : ℚ
  height : ℚ
deriving DecidableEq

/-- Horizontal placement label, the `x` variable of lines 146-154. -/
inductive HPlace
  | right
  | left
  | center
deriving DecidableEq

/-- Vertical placement label, the `y` variable of lines 157-196. -/
inductive VPlace
  | bottom
  | top
deriving DecidableEq

/-- The placement descriptor published at lines 199-206: the
`data-placement` pair plus the `--dialog-vertical-offset` value. -/
structure Placement where
  x : HPlace
  y : VPlace
  verticalOffset : ℚ
deriving DecidableEq

/-- Line 142: `containerRect.width - buttonRight - CONTAINER_GAP`, where
`buttonRight = triggerRect.right - containerRect.left` (line 137). -/
def spaceRight (c t : Rect) : ℚ :=
  c.width - (t.right - c.left) - CONTAINER_GAP

/-- Line 143: `buttonLeft - CONTAINER_GAP`, where
`buttonLeft = triggerRect.left - containerRect.left` (line 136). -/
def spaceLeft (c t : Rect) : ℚ :=
  (t.left - c.left) - CONTAINER_GAP

/-- Horizontal placement, lines 146-154. -/
def horizontalPlacement (c t : Rect) (dialogWidth : ℚ) : HPlace :=
  if spaceRight c t ≥ dialogWidth + BUTTON_GAP then HPlace.right
  else if spaceLeft c t ≥ dialogWidth + BUTTON_GAP then HPlace.left
  else HPlace.center

/-- Vertical label in the non-center branch, lines 160-185: `y` starts as
`bottom` (line 157) and flips to `top` exactly when the top-aligned dialog
would overflow the container bottom, i.e. when
`buttonTop + dialogHeight > containerRect.height - CONTAINER_GAP`
(line 164), where `buttonTop = triggerRect.top - containerRect.top`. -/
def nonCenterY (c t : Rect) (dialogHeight : ℚ) : VPlace :=
  if (t.top - c.top) + dialogHeight > c.height - CONTAINER_GAP then VPlace.top
  else VPlace.bottom

/-- Vertical offset in the non-center branch, lines 158-185.  In the flipped
branch the dialog is bottom-aligned: `dialogStartY = buttonBottom - dialogHeight`
and `dialogEndY = buttonBottom` (lines 166-167); in the unflipped branch
`dialogStartY = buttonTop` (line 161). -/
def nonCenterOffset (c t : Rect) (dialogHeight : ℚ) : ℚ :=
  if (t.top - c.top) + dialogHeight > c.height - CONTAINER_GAP then
    if (t.bottom - c.top) - dialogHeight < CONTAINER_GAP then
      CONTAINER_GAP - ((t.bottom - c.top) - dialogHeight)
    else if (t.bottom - c.top) > c.height - CONTAINER_GAP then
      -((t.bottom - c.top) - (c.height - CONTAINER_GAP))
    else 0
  else
    if (t.top - c.top) < CONTAINER_GAP then
      CONTAINER_GAP - (t.top - c.top)
    else 0

/-- Vertical placement in the center branch, lines 186-196, with
`buttonTop = triggerRect.top - containerRect.top` and
`buttonBottom = triggerRect.bottom - containerRect.top`. -/
def centerVertical (c t : Rect) (dialogHeight : ℚ) : VPlace :=
  if c.height - (t.bottom - c.top) ≥ dialogHeight + TOTAL_GAP then VPlace.bottom
  else if (t.top - c.top) ≥ dialogHeight + TOTAL_GAP then VPlace.top
  else if (t.top - c.top) < c.height / 2 then VPlace.bottom
  else VPlace.top

/-- The geometric core of `#calculateDialogPlacement` (lines 136-206):
from the container rectangle, trigger rectangle and the measured natural
dialog size, the published placement descriptor. -/
def calculateDialogPlacement (c t : Rect) (dialogWidth dialogHeight : ℚ) : Placement :=
  if horizontalPlacement c t dialogWidth = HPlace.center then
    { x := HPlace.center, y := centerVertical c t dialogHeight, verticalOffset := 0 }
  else
    { x := horizontalPlacement c t dialogWidth
      y := nonCenterY c t dialogHeight
      verticalOffset := nonCenterOffset c t dialogHeight }

/-- The published horizontal label always equals the value of the
`x` variable computed at lines 146-154. -/
theorem calculateDialogPlacement_x (c t : Rect) (w h : ℚ) :
    (calculateDialogPlacement c t w h).x = horizontalPlacement c t w := by
  unfold calculateDialogPlacement
  split
  · rename_i hc
    simp [hc]
  · rfl

/-- The horizontal placement rule in the words of the specification: prefer
`right` if remaining space right of the trigger (minus the fixed edge gap)
accommodates the overlay width plus the trigger-to-overlay gap; else prefer
`left` under the symmetric condition; else fall back to `center`. -/
def specHorizontalPlacement (c t : Rect) (dialogWidth : ℚ) : HPlace :=
  if c.width - (t.right - c.left) - CONTAINER_GAP ≥ dialogWidth + BUTTON_GAP then HPlace.right
  else if (t.left - c.left) - CONTAINER_GAP ≥ dialogWidth + BUTTON_GAP then HPlace.left
  else HPlace.center

/-- C1: for every container rectangle, trigger rectangle and overlay natural
size, the placement computation selects the horizontal label exactly by the
spec rule (right when the right side fits, else left when the left side fits,
else center); consequently a non-center horizontal label is selected only
when its required space (overlay width plus trigger-to-overlay gap) is within
the computed available space on that side. -/
theorem horizontal_placement_correct (c t : Rect) (w h : ℚ) :
    (calculateDialogPlacement c t w h).x = specHorizontalPlacement c t w
    ∧ ((calculateDialogPlacement c t w h).x = HPlace.right →
        w + BUTTON_GAP ≤ spaceRight c t)
    ∧ ((calculateDialogPlacement c t w h).x = HPlace.left →
        w + BUTTON_GAP ≤ spaceLeft c t) := by
  refine ⟨calculateDialogPlacement_x c t w h, ?_, ?_⟩ <;>
    rw [calculateDialogPlacement_x] <;>
      unfold horizontalPlacement <;> split_ifs with h1 h2 <;> simp_all

/-- Witness for C1: the concrete geometry of spec section 8 (container width
400, trigger at x in [350, 390], overlay width 100) selects `left`, and the
theorem then yields that the left side space indeed fits the overlay. -/
theorem horizontal_placement_correct_witness :
    (calculateDialogPlacement ⟨0, 400, 0, 300, 400, 300⟩ ⟨350, 390, 100, 120, 40, 20⟩
        100 50).x
      = specHorizontalPlacement ⟨0, 400, 0, 300, 400, 300⟩ ⟨350, 390, 100, 120, 40, 20⟩ 100
    ∧ 100 + BUTTON_GAP
        ≤ spaceLeft ⟨0, 400, 0, 300, 400, 300⟩ ⟨350, 390, 100, 120, 40, 20⟩ := by
  refine ⟨(horizontal_placement_correct _ _ 100 50).1,
    (horizontal_placement_correct _ _ 100 50).2.2 ?_⟩
  norm_num [calculateDialogPlacement, horizontalPlacement, spaceRight, spaceLeft,
    BUTTON_GAP, CONTAINER_GAP]
  simp

/-- Container rectangle of the C2 counterexample. -/
def c2Container : Rect := ⟨0, 1000, 0, 100, 1000, 100⟩

/-- Trigger rectangle of the C2 counterexample: a tall trigger, top 0 and
bottom 95 inside a container of height 100. -/
def c2Trigger : Rect := ⟨0, 10, 0, 95, 10, 95⟩

/-- C2 as stated is false: with container height H = 100, trigger bottom at
y = 95 and overlay height h = 20, the horizontal placement is non-center and
both claim hypotheses hold (H - y = 5 < 20 = h and y = 95 >= 20 = h), yet the
code keeps the default `bottom` label: the flip at line 164 tests the trigger
TOP (`buttonTop + dialogHeight > height - CONTAINER_GAP`, here 20 > 90 is
false), not the trigger bottom. -/
theorem vertical_flip_claim_counterexample :
    (calculateDialogPlacement c2Container c2Trigger 100 20).x ≠ HPlace.center
    ∧ c2Container.height - (c2Trigger.bottom - c2Container.top) < 20
    ∧ (20 : ℚ) ≤ c2Trigger.bottom - c2Container.top
    ∧ (calculateDialogPlacement c2Container c2Trigger 100 20).y = VPlace.bottom := by
  refine ⟨?_, by norm_num [c2Container, c2Trigger], by norm_num [c2Container, c2Trigger], ?_⟩ <;>
    · norm_num [calculateDialogPlacement, horizontalPlacement, nonCenterY, nonCenterOffset,
        spaceRight, spaceLeft, BUTTON_GAP, CONTAINER_GAP, c2Container, c2Trigger]
      simp

/-- C2 amended: with container height H, trigger bottom at y and overlay
height h, if H - y < h, y >= h, and additionally the trigger is no taller
than the container edge gap (so that its top and bottom edges agree up to
CONTAINER_GAP, which is what the code actually tests), then for every
non-center horizontal placement the vertical placement resolves to `top`
deterministically. -/
theorem vertical_flip_resolves_top (c t : Rect) (w h : ℚ)
    (hx : (calculateDialogPlacement c t w h).x ≠ HPlace.center)
    (hspace : c.height - (t.bottom - c.top) < h)
    (_hfit : h ≤ t.bottom - c.top)
    (hthin : t.bottom - t.top ≤ CONTAINER_GAP) :
    (calculateDialogPlacement c t w h).y = VPlace.top := by
  rw [calculateDialogPlacement_x] at hx
  unfold calculateDialogPlacement
  rw [if_neg hx]
  unfold nonCenterY
  rw [if_pos]
  unfold CONTAINER_GAP at hthin ⊢
  linarith

/-- Witness for C2 amended: a zero-height trigger at y = 80 in a container of
height 100 with overlay height 30 (non-center horizontal), flipping to `top`. -/
theorem vertical_flip_resolves_top_witness :
    (calculateDialogPlacement ⟨0, 1000, 0, 100, 1000, 100⟩ ⟨0, 10, 80, 80, 10, 0⟩
        50 30).y = VPlace.top :=
  vertical_flip_resolves_top ⟨0, 1000, 0, 100, 1000, 100⟩ ⟨0, 10, 80, 80, 10, 0⟩ 50 30
    (by norm_num [calculateDialogPlacement, horizontalPlacement, nonCenterY,
        nonCenterOffset, spaceRight, spaceLeft, BUTTON_GAP, CONTAINER_GAP]; simp)
    (by norm_num) (by norm_num) (by norm_num [CONTAINER_GAP])

/-- Container rectangle of the C3 counterexample. -/
def c3Container : Rect := ⟨0, 50, 0, 100, 50, 100⟩

/-- Trigger rectangle of the C3 counterexample: top 40, bottom 80, so its
vertical midpoint 60 lies in the lower half of the height-100 container while
its top edge lies in the upper half. -/
def c3Trigger : Rect := ⟨20, 30, 40, 80, 10, 40⟩

/-- C3 as stated is false: horizontal placement is `center`, neither stacking
condition holds, and the trigger's vertical midpoint (60) lies in the lower
half of the container (height 100), so the claim predicts `top`; but the
code's fallback at line 194 tests the trigger TOP edge (`buttonTop <
containerRect.height / 2`, here 40 < 50) and yields `bottom`. -/
theorem center_vertical_claim_counterexample :
    (calculateDialogPlacement c3Container c3Trigger 100 30).x = HPlace.center
    ∧ ¬(c3Container.height - (c3Trigger.bottom - c3Container.top) ≥ 30 + TOTAL_GAP)
    ∧ ¬(c3Trigger.top - c3Container.top ≥ 30 + TOTAL_GAP)
    ∧ ((c3Trigger.top - c3Container.top) + (c3Trigger.bottom - c3Container.top)) / 2
        ≥ c3Container.height / 2
    ∧ (calculateDialogPlacement c3Container c3Trigger 100 30).y = VPlace.bottom := by
  refine ⟨?_, by norm_num [c3Container, c3Trigger, TOTAL_GAP, BUTTON_GAP, CONTAINER_GAP],
    by norm_num [c3Container, c3Trigger, TOTAL_GAP, BUTTON_GAP, CONTAINER_GAP],
    by norm_num [c3Container, c3Trigger], ?_⟩ <;>
    norm_num [calculateDialogPlacement, horizontalPlacement, centerVertical,
      spaceRight, spaceLeft, BUTTON_GAP, CONTAINER_GAP, TOTAL_GAP, c3Container, c3Trigger]

/-- The center-case vertical placement rule in the amended words: prefer
`bottom` if the space from trigger bottom to container bottom fits the
overlay height plus the total gap; else `top` if the space above fits it;
else `bottom` exactly when the trigger's TOP edge lies strictly in the upper
half of the container, and `top` otherwise. -/
def specCenterVertical (c t : Rect) (dialogHeight : ℚ) : VPlace :=
  if c.height - (t.bottom - c.top) ≥ dialogHeight + TOTAL_GAP then VPlace.bottom
  else if (t.top - c.top) ≥ dialogHeight + TOTAL_GAP then VPlace.top
  else if (t.top - c.top) < c.height / 2 then VPlace.bottom
  else VPlace.top

/-- C3 amended: whenever the horizontal placement resolves to `center`, the
vertical placement follows the spec rule with the final tie-break taken on
the trigger's top edge against the container's vertical midline (instead of
the trigger's vertical midpoint). -/
theorem center_vertical_amended (c t : Rect) (w h : ℚ)
    (hx : (calculateDialogPlacement c t w h).x = HPlace.center) :
    (calculateDialogPlacement c t w h).y = specCenterVertical c t h := by
  by_cases hc : horizontalPlacement c t w = HPlace.center
  · unfold calculateDialogPlacement
    rw [if_pos hc]
    rfl
  · rw [calculateDialogPlacement_x] at hx
    exact absurd hx hc

/-- Witness for C3 amended: the counterexample geometry applied through the
amended theorem. -/
theorem center_vertical_amended_witness :
    (calculateDialogPlacement c3Container c3Trigger 100 30).y
      = specCenterVertical c3Container c3Trigger 30 :=
  center_vertical_amended c3Container c3Trigger 100 30
    (by norm_num [calculateDialogPlacement, horizontalPlacement, spaceRight, spaceLeft,
      BUTTON_GAP, CONTAINER_GAP, c3Container, c3Trigger])

/-- C10: in the non-center case, when the top-aligned overlay does not
overflow the container's bottom edge but its start position lies above the
container's top edge gap, the vertical label stays `bottom` (no flip) and the
corrective offset CONTAINER_GAP - dialogStartY is applied, and it is
positive. -/
theorem corrective_offset_keeps_bottom (c t : Rect) (w h : ℚ)
    (hx : (calculateDialogPlacement c t w h).x ≠ HPlace.center)
    (hnoflip : (t.top - c.top) + h ≤ c.height - CONTAINER_GAP)
    (htop : t.top - c.top < CONTAINER_GAP) :
    (calculateDialogPlacement c t w h).y = VPlace.bottom
    ∧ (calculateDialogPlacement c t w h).verticalOffset
        = CONTAINER_GAP - (t.top - c.top)
    ∧ 0 < (calculateDialogPlacement c t w h).verticalOffset := by
  rw [calculateDialogPlacement_x] at hx
  unfold calculateDialogPlacement
  rw [if_neg hx]
  have hcond : ¬((t.top - c.top) + h > c.height - CONTAINER_GAP) := not_lt.mpr hnoflip
  refine ⟨?_, ?_, ?_⟩
  · show nonCenterY c t h = VPlace.bottom
    unfold nonCenterY
    rw [if_neg hcond]
  · show nonCenterOffset c t h = CONTAINER_GAP - (t.top - c.top)
    unfold nonCenterOffset
    rw [if_neg hcond, if_pos htop]
  · show (0 : ℚ) < nonCenterOffset c t h
    unfold nonCenterOffset
    rw [if_neg hcond, if_pos htop]
    linarith

/-! ### Dialog element state, the measurement effects, and show/close

The dialog element as the component reads and writes it: the `open` flag,
the `data-showing` / `data-closing` / `data-placement` dataset entries, and
the inline style properties the component touches (`display`, `visibility`,
`transform`, `--dialog-vertical-offset`). -/

/-- Inline style slots touched by the component.  `none` means the property
is not set inline on the element. -/
structure InlineStyle where
  display : Option String
  visibility : Option String
  transform : Option String
  dialogVerticalOffset : Option ℚ
deriving DecidableEq

/-- The dialog element's state as observed by the component. -/
structure DialogEl where
  isOpen : Bool
  showing : Bool
  closing : Bool
  placement : Option Placement
  style : InlineStyle
deriving DecidableEq

/-- Lines 124-127: show the dialog invisibly to measure it (and drop the
placement attribute). -/
def applyMeasureStyles (st : InlineStyle) : InlineStyle :=
  { st with visibility := some "hidden", display := some "block", transform := some "none" }

/-- Lines 132-134: `style.removeProperty` for display, visibility and
transform (removal, not restoration of previous inline values). -/
def removeMeasureStyles (st : InlineStyle) : InlineStyle :=
  { st with display := none, visibility := none, transform := none }

/-- How a call to `#calculateDialogPlacement` terminates. -/
inductive CalcOutcome
  | earlyReturn
  | thrown
  | settled
deriving DecidableEq

/-- Result of a `#calculateDialogPlacement` call: how it terminated, and the
dialog element afterwards (absent references stay absent). -/
structure CalcResult where
  outcome : CalcOutcome
  dialog : Option DialogEl
deriving DecidableEq

/-- The full `#calculateDialogPlacement` (lines 101-210) over possibly-absent
references.  Line 107: a missing container returns early (undefined) before
touching anything.  Line 120: `trigger.getBoundingClientRect()` throws a
TypeError when the trigger ref is absent.  Line 124: `dialog.style` throws
when `querySelector('dialog')` returned null.  Otherwise the dialog is shown
invisibly, measured (its natural size is the `measuredW`/`measuredH` input),
the measurement styles are removed, and the fresh placement descriptor and
vertical offset are published (lines 199-206). -/
def calculateDialogPlacementRun (container trigger : Option Rect)
    (dialog : Option DialogEl) (measuredW measuredH : ℚ) : CalcResult :=
  match container with
  | none => ⟨CalcOutcome.earlyReturn, dialog⟩
  | some c =>
    match trigger with
    | none => ⟨CalcOutcome.thrown, dialog⟩
    | some t =>
      match dialog with
      | none => ⟨CalcOutcome.thrown, none⟩
      | some d =>
        let d1 : DialogEl := { d with style := applyMeasureStyles d.style, placement := none }
        let d2 : DialogEl := { d1 with style := removeMeasureStyles d1.style }
        let p := calculateDialogPlacement c t measuredW measuredH
        let d3 : DialogEl :=
          { d2 with
            placement := some p
            style :=
              { d2.style with
                dialogVerticalOffset :=
                  if p.verticalOffset ≠ 0 then some p.verticalOffset else none } }
        ⟨CalcOutcome.settled, some d3⟩

/-- Component-level state around show/close: the dialog element plus the
listeners registered by `showDialog` (body click/keydown/keyup and the
pointer-leave listener on the dialog, lines 248-251). -/
structure ShowState where
  dialog : Option DialogEl
  bodyClick : Bool
  bodyKeydown : Bool
  bodyKeyup : Bool
  dialogLeaveListener : Bool
deriving DecidableEq

/-- How a `showDialog` call terminates. -/
inductive ShowOutcome
  | noDialog
  | threw
  | shown
deriving DecidableEq

/-- `showDialog` (lines 241-252).  Line 243: missing dialog is a silent
no-op.  It then awaits `#calculateDialogPlacement`: if that throws, the
rejection propagates and nothing further runs; if it returned early
(undefined, missing container), the await resolves immediately and the
dialog is still marked showing, shown, and the dismissal listeners are
registered. -/
def showDialogRun (container trigger : Option Rect) (s : ShowState)
    (measuredW measuredH : ℚ) : ShowOutcome × ShowState :=
  match s.dialog with
  | none => (ShowOutcome.noDialog, s)
  | some d0 =>
    let r := calculateDialogPlacementRun container trigger s.dialog measuredW measuredH
    match r.outcome with
    | CalcOutcome.thrown => (ShowOutcome.threw, { s with dialog := r.dialog })
    | _ =>
      let d := r.dialog.getD d0
      (ShowOutcome.shown,
        { s with
          dialog := some { d with showing := true, isOpen := true }
          bodyClick := true
          bodyKeydown := true
          bodyKeyup := true
          dialogLeaveListener := true })

/-- The synchronous prefix of `closeDialog` (lines 258-272): missing dialog
is a silent no-op (line 262); otherwise mark closing, close the dialog, and
unregister the dismissal and pointer listeners. -/
def closeDialogPre (s : ShowState) : ShowState :=
  match s.dialog with
  | none => s
  | some d =>
    { s with
      dialog := some { d with closing := true, isOpen := false }
      bodyClick := false
      bodyKeydown := false
      bodyKeyup := false
      dialogLeaveListener := false }

/-- The continuation of `closeDialog` after awaiting the settled animations
(lines 275-279): only if the dialog is still closed at that moment are the
showing/closing/placement dataset entries cleared. -/
def closeDialogPost (s : ShowState) : ShowState :=
  match s.dialog with
  | none => s
  | some d =>
    if d.isOpen then s
    else { s with dialog := some { d with showing := false, closing := false, placement := none } }

/-- `lightDismissMouse` (lines 287-292): re-query the dialog; only when it is
present AND the click landed outside it (the `isClickedOutside` utility,
passed here as the `clickedOutside` input) invoke `closeDialog` (whose
synchronous part is `closeDialogPre`); an absent dialog is a silent no-op. -/
def lightDismissMouse (clickedOutside : Bool) (s : ShowState) : ShowState :=
  match s.dialog with
  | none => s
  | some _ => if clickedOutside then closeDialogPre s else s

/-- A keyboard event as tested at lines 303-305: whether it is a keydown
(else keyup), and whether the key is Escape. -/
structure KeyEvt where
  keydown : Bool
  escape : Bool
deriving DecidableEq

/-- `lightDismissKeyboard` (lines 299-309): line 301 returns silently when
the dialog is absent; otherwise close on Escape keydown, or on a keyup while
the dialog does not contain focus (the `:focus` matches result is the
`dialogHasFocus` input). -/
def lightDismissKeyboard (e : KeyEvt) (dialogHasFocus : Bool) (s : ShowState) : ShowState :=
  match s.dialog with
  | none => s
  | some _ =>
    if (e.keydown && e.escape) || (!e.keydown && !dialogHasFocus) then closeDialogPre s
    else s

/-- C4: after `closeDialog` hides the overlay and awaits the animations, the
resume step clears the transitional state exactly when the overlay stayed
closed: if nothing reopened it, showing/closing/placement are cleared; if a
concurrent `showDialog` reopened the overlay during the wait, the resume step
changes nothing (the resolving close never clobbers the reopened state). -/
theorem close_resume_respects_reopen (s : ShowState) (d : DialogEl)
    (hd : s.dialog = some d) (c t : Rect) (w h : ℚ) :
    (∀ d1, (closeDialogPost (closeDialogPre s)).dialog = some d1 →
        d1.showing = false ∧ d1.closing = false ∧ d1.placement = none)
    ∧ closeDialogPost (showDialogRun (some c) (some t) (closeDialogPre s) w h).2
        = (showDialogRun (some c) (some t) (closeDialogPre s) w h).2 := by
  obtain ⟨sd, b1, b2, b3, b4⟩ := s
  simp only at hd
  subst hd
  constructor
  · intro d1 h1
    simp only [closeDialogPre, closeDialogPost] at h1
    simp at h1
    subst h1
    exact ⟨rfl, rfl, rfl⟩
  · rfl

/-- Witness for C4 at a concrete dialog state and geometry. -/
theorem close_resume_respects_reopen_witness :
    (∀ d1,
        (closeDialogPost (closeDialogPre
            ⟨some ⟨true, true, false, none, ⟨none, none, none, none⟩⟩,
              true, true, true, true⟩)).dialog = some d1 →
          d1.showing = false ∧ d1.closing = false ∧ d1.placement = none)
    ∧ closeDialogPost (showDialogRun (some ⟨0, 400, 0, 300, 400, 300⟩)
          (some ⟨350, 390, 100, 120, 40, 20⟩)
          (closeDialogPre ⟨some ⟨true, true, false, none, ⟨none, none, none, none⟩⟩,
            true, true, true, true⟩) 100 50).2
        = (showDialogRun (some ⟨0, 400, 0, 300, 400, 300⟩)
            (some ⟨350, 390, 100, 120, 40, 20⟩)
            (closeDialogPre ⟨some ⟨true, true, false, none, ⟨none, none, none, none⟩⟩,
              true, true, true, true⟩) 100 50).2 :=
  close_resume_respects_reopen
    ⟨some ⟨true, true, false, none, ⟨none, none, none, none⟩⟩, true, true, true, true⟩
    ⟨true, true, false, none, ⟨none, none, none, none⟩⟩ rfl
    ⟨0, 400, 0, 300, 400, 300⟩ ⟨350, 390, 100, 120, 40, 20⟩ 100 50

/-- C5 as stated is false on the "overlay does not show" part: with the
container reference absent, `#calculateDialogPlacement` returns early
(line 107) without computing any placement, but `showDialog` resumes after
`await undefined` and still marks the dialog showing and shows it
(lines 246-247). -/
theorem missing_container_still_shows_counterexample :
    (showDialogRun none (some ⟨350, 390, 100, 120, 40, 20⟩)
        ⟨some ⟨false, false, false, none, ⟨none, none, none, none⟩⟩,
          false, false, false, false⟩ 100 50).1 = ShowOutcome.shown
    ∧ ((showDialogRun none (some ⟨350, 390, 100, 120, 40, 20⟩)
        ⟨some ⟨false, false, false, none, ⟨none, none, none, none⟩⟩,
          false, false, false, false⟩ 100 50).2.dialog.map DialogEl.isOpen) = some true
    ∧ ((showDialogRun none (some ⟨350, 390, 100, 120, 40, 20⟩)
        ⟨some ⟨false, false, false, none, ⟨none, none, none, none⟩⟩,
          false, false, false, false⟩ 100 50).2.dialog.map DialogEl.placement) = some none :=
  ⟨rfl, rfl, rfl⟩

/-- The dialog element of the C9 counterexample: it carries a pre-existing
inline `display` value before the measurement runs. -/
def dialogWithInlineDisplay : DialogEl :=
  ⟨false, false, false, none, ⟨some "flex", none, none, none⟩⟩

/-- C9 as stated is false on the "restores the prior styling" part: the
component removes the inline display/visibility/transform properties after
measuring (lines 132-134, `style.removeProperty`) instead of restoring their
previous inline values, so a pre-existing inline `display` value is lost. -/
theorem measurement_restore_counterexample :
    ((calculateDialogPlacementRun (some ⟨0, 400, 0, 300, 400, 300⟩)
        (some ⟨350, 390, 100, 120, 40, 20⟩) (some dialogWithInlineDisplay) 100 50).dialog.map
          (fun x => x.style.display)) = some none
    ∧ dialogWithInlineDisplay.style.display = some "flex"
    ∧ ((calculateDialogPlacementRun (some ⟨0, 400, 0, 300, 400, 300⟩)
        (some ⟨350, 390, 100, 120, 40, 20⟩) (some dialogWithInlineDisplay) 100 50).dialog.map
          (fun x => x.style.display)) ≠ some dialogWithInlineDisplay.style.display := by
  refine ⟨rfl, rfl, ?_⟩
  intro hcontra
  simp only [calculateDialogPlacementRun, dialogWithInlineDisplay, Option.map] at hcontra
  simp [removeMeasureStyles, applyMeasureStyles] at hcontra

/-- C9 amended: after the measurement step, the overlay carries no inline
display/visibility/transform at all (no measurement residue); in particular,
whenever the overlay had no pre-existing inline values for these properties
(the component itself never leaves any), the prior styling is restored
exactly. -/
theorem measurement_clears_inline (c t : Rect) (d : DialogEl) (w h : ℚ) :
    ∀ d2, (calculateDialogPlacementRun (some c) (some t) (some d) w h).dialog = some d2 →
      d2.style.display = none ∧ d2.style.visibility = none ∧ d2.style.transform = none
      ∧ (d.style.display = none ∧ d.style.visibility = none ∧ d.style.transform = none →
          d2.style.display = d.style.display
          ∧ d2.style.visibility = d.style.visibility
          ∧ d2.style.transform = d.style.transform) := by
  intro d2 h2
  simp only [calculateDialogPlacementRun, Option.some.injEq] at h2
  subst h2
  refine ⟨rfl, rfl, rfl, ?_⟩
  intro hprior
  exact ⟨by rw [hprior.1]; rfl, by rw [hprior.2.1]; rfl, by rw [hprior.2.2]; rfl⟩

/-- Witness for C9 amended at a concrete geometry and a dialog with no
pre-existing inline styles. -/
theorem measurement_clears_inline_witness :
    ((calculateDialogPlacementRun (some ⟨0, 400, 0, 300, 400, 300⟩)
        (some ⟨350, 390, 100, 120, 40, 20⟩)
        (some ⟨false, false, false, none, ⟨none, none, none, none⟩⟩) 100 50).dialog.getD
          ⟨false, false, false, none, ⟨none, none, none, none⟩⟩).style.display = none :=
  (measurement_clears_inline ⟨0, 400, 0, 300, 400, 300⟩ ⟨350, 390, 100, 120, 40, 20⟩
    ⟨false, false, false, none, ⟨none, none, none, none⟩⟩ 100 50
    ((calculateDialogPlacementRun (some ⟨0, 400, 0, 300, 400, 300⟩)
        (some ⟨350, 390, 100, 120, 40, 20⟩)
        (some ⟨false, false, false, none, ⟨none, none, none, none⟩⟩) 100 50).dialog.getD
          ⟨false, false, false, none, ⟨none, none, none, none⟩⟩) rfl).1

/-- Witness for C10: trigger top 5 in a container of height 200 with overlay
height 50 and a non-center horizontal placement; the label stays `bottom` and
the corrective offset is CONTAINER_GAP - 5 = 5 > 0. -/
theorem corrective_offset_keeps_bottom_witness :
    (calculateDialogPlacement ⟨0, 1000, 0, 200, 1000, 200⟩ ⟨0, 10, 5, 15, 10, 10⟩
        50 50).y = VPlace.bottom
    ∧ (calculateDialogPlacement ⟨0, 1000, 0, 200, 1000, 200⟩ ⟨0, 10, 5, 15, 10, 10⟩
        50 50).verticalOffset
        = CONTAINER_GAP - ((5 : ℚ) - 0)
    ∧ 0 < (calculateDialogPlacement ⟨0, 1000, 0, 200, 1000, 200⟩ ⟨0, 10, 5, 15, 10, 10⟩
        50 50).verticalOffset :=
  corrective_offset_keeps_bottom ⟨0, 1000, 0, 200, 1000, 200⟩ ⟨0, 10, 5, 15, 10, 10⟩ 50 50
    (by norm_num [calculateDialogPlacement, horizontalPlacement, nonCenterY,
        nonCenterOffset, spaceRight, spaceLeft, BUTTON_GAP, CONTAINER_GAP]; simp)
    (by norm_num [CONTAINER_GAP]) (by norm_num [CONTAINER_GAP])

/-! ### The hover-intent machine

Event-level model of the desktop hover wiring.  The trigger and dialog
elements are assumed present (the guards for absent references are settled
above).  DOM event-delivery constraints are encoded as guards of the step
function: `pointerenter` and `pointerleave` on the trigger alternate
(tracked by `pointerInside`), and a listener only runs while it is attached.
`showDialog` is split at its `await` of the placement settle delay
(line 245 / line 209): `timerFire` runs the synchronous placement phase and
suspends, `settleFires` resumes it and actually shows the dialog.  The
asynchronous tail of `closeDialog` is modelled by `closeDialogPost` above. -/

/-- Machine state: pointer position, dialog flags, which listeners are
attached, the component's timer field, and how many hover-intent timeouts
are pending in the runtime.  `heldTimer` is true when `this.timer` holds the
id of a timeout that is still pending; a fired timeout leaves a stale id
behind (line 56 never nulls it), which `clearTimeout` then hits harmlessly,
so a stale id is not part of the observable state.  `livePending` counts all
pending hover-intent timeouts, including any that lost their handle when
line 56 overwrote `this.timer`. -/
structure MState where
  pointerInside : Bool
  dialogOpen : Bool
  showing : Bool
  closing : Bool
  enterHandler : Bool
  leaveListener : Bool
  dialogLeaveListener : Bool
  bodyListeners : Bool
  heldTimer : Bool
  livePending : Nat
  showWaiting : Bool
deriving DecidableEq

/-- The pointerleave event payload as tested at lines 229-234. -/
structure LeaveEvt where
  leavingTrigger : Bool
  leavingDialog : Bool
  goingToDialog : Bool
  goingToTrigger : Bool
deriving DecidableEq

/-- Events delivered to the component: trigger pointerenter, trigger
pointerleave, dialog pointerleave, the held hover-intent timeout firing, a
stale (handle-lost) hover-intent timeout firing, the placement settle delay
resolving, and a light dismissal (outside click, Escape keydown, or
focus-loss keyup) whose dismissal condition holds. -/
inductive Ev
  | pointerenter
  | pointerleave (e : LeaveEvt)
  | dialogLeave (e : LeaveEvt)
  | timerFire
  | staleFire
  | settleFires
  | dismiss
deriving DecidableEq

/-- Lines 222-225 (also lines 79-82): `if (this.timer) { clearTimeout(...);
this.timer = null; }` — cancels the held timeout if it is still pending. -/
def clearHeldTimer (s : MState) : MState :=
  { s with
    heldTimer := false
    livePending := s.livePending - (if s.heldTimer then 1 else 0) }

/-- The synchronous effects of `closeDialog` (lines 264-272) on the machine
state: mark closing, close the dialog, remove the body dismissal listeners
and the pointer-leave listeners on dialog and trigger.  Note `this.timer` is
NOT cleared here. -/
def closeDialogEffects (s : MState) : MState :=
  { s with
    closing := true
    dialogOpen := false
    bodyListeners := false
    dialogLeaveListener := false
    leaveListener := false }

/-- `#handlePointerLeave` (lines 217-239): clear the open timer first; if
the dialog is not open, return; else close when leaving the trigger not
toward the dialog, or leaving the dialog not toward the trigger. -/
def handlePointerLeave (s : MState) (e : LeaveEvt) : MState :=
  let s1 := clearHeldTimer s
  if s1.dialogOpen then
    if (e.leavingTrigger && !e.goingToDialog) || (e.leavingDialog && !e.goingToTrigger) then
      closeDialogEffects s1
    else s1
  else s1

/-- The pointerenter closure of lines 53-60: if the dialog is open, return;
else schedule the 120ms hover-intent timeout into `this.timer` (overwriting
the handle without clearing, line 56) and attach the trigger pointer-leave
listener (`addEventListener` with the same function: no duplicate). -/
def pointerenterHandler (s : MState) : MState :=
  if s.dialogOpen then s
  else
    { s with
      heldTimer := true
      livePending := s.livePending + 1
      leaveListener := true }

/-- The held timeout fires (line 56): the timeout is no longer pending
(its stale id stays in `this.timer`); `showDialog` starts, runs the
synchronous placement phase and suspends awaiting the settle delay. -/
def timerFireEffects (s : MState) : MState :=
  { s with
    heldTimer := false
    livePending := s.livePending - 1
    showWaiting := true }

/-- The settle delay of line 209 resolves: `showDialog` resumes at line 246,
marks the dialog showing, shows it, and attaches the body dismissal
listeners and the dialog pointer-leave listener (lines 246-251). -/
def settleEffects (s : MState) : MState :=
  { s with
    showWaiting := false
    showing := true
    dialogOpen := true
    bodyListeners := true
    dialogLeaveListener := true }

/-- `#setupDesktopListeners` (lines 46-64) with trigger and dialog present:
store and attach the pointerenter handler. -/
def setupDesktopListeners (s : MState) : MState :=
  { s with enterHandler := true }

/-- `#removeDesktopListeners` (lines 70-83): if the handler is stored,
remove the pointerenter and pointerleave listeners and null the handler;
then clear the held timeout. -/
def removeDesktopListeners (s : MState) : MState :=
  let s1 :=
    if s.enterHandler then { s with enterHandler := false, leaveListener := false } else s
  clearHeldTimer s1

/-- `#handleBreakpointChange` (lines 89-95): always remove the desktop
listeners first; if the new viewport is not mobile, set them up again. -/
def handleBreakpointChange (isMobile : Bool) (s : MState) : MState :=
  let s1 := removeDesktopListeners s
  if !isMobile then setupDesktopListeners s1 else s1

/-- One event step.  Guards encode event-delivery reality: pointerenter
only fires when the pointer was outside, pointerleave only when inside, a
listener only runs while attached, the held/stale timeouts only fire while
pending, the settle delay only resolves while `showDialog` is suspended on
it, and light dismissal needs the body listeners registered. -/
def step (s : MState) : Ev → MState
  | Ev.pointerenter =>
    if s.pointerInside then s
    else
      let s1 := { s with pointerInside := true }
      if s1.enterHandler then pointerenterHandler s1 else s1
  | Ev.pointerleave e =>
    if s.pointerInside then
      let s1 := { s with pointerInside := false }
      if s1.leaveListener then handlePointerLeave s1 e else s1
    else s
  | Ev.dialogLeave e =>
    if s.dialogLeaveListener then handlePointerLeave s e else s
  | Ev.timerFire => if s.heldTimer then timerFireEffects s else s
  | Ev.staleFire =>
    if s.livePending > (if s.heldTimer then 1 else 0) then
      { s with livePending := s.livePending - 1, showWaiting := true }
    else s
  | Ev.settleFires => if s.showWaiting then settleEffects s else s
  | Ev.dismiss => if s.bodyListeners then closeDialogEffects s else s

/-- The state on desktop right after `connectedCallback`: listeners set up,
dialog closed, nothing pending. -/
def initState : MState :=
  { pointerInside := false
    dialogOpen := false
    showing := false
    closing := false
    enterHandler := true
    leaveListener := false
    dialogLeaveListener := false
    bodyListeners := false
    heldTimer := false
    livePending := 0
    showWaiting := false }

/-- Run a sequence of events from a state. -/
def run (evs : List Ev) (s : MState) : MState :=
  evs.foldl step s

/-- True of a dismiss event. -/
def isDismiss : Ev → Bool
  | Ev.dismiss => true
  | _ => false

/-- A trace is benign from `s` when no light dismissal is delivered while a
hover-intent timeout is held pending (the interleaving under which
`closeDialog` would orphan the pending timeout, since it never clears
`this.timer`). -/
def benignFrom (s : MState) : List Ev → Bool
  | [] => true
  | e :: rest => ((!isDismiss e) || (!s.heldTimer)) && benignFrom (step s e) rest

/-- Timer invariant: the pending hover-intent timeouts are exactly the one
held in `this.timer` (zero or one), and a held timeout implies the pointer
is on the trigger with the pointer-leave listener attached. -/
def TimerInv (s : MState) : Prop :=
  s.livePending = (if s.heldTimer then 1 else 0)
  ∧ (s.heldTimer = true → s.pointerInside = true ∧ s.leaveListener = true)

theorem timerInv_clearHeldTimer (s : MState)
    (h1 : s.livePending = (if s.heldTimer = true then 1 else 0)) :
    TimerInv (clearHeldTimer s) := by
  refine ⟨?_, by simp [clearHeldTimer]⟩
  simp only [clearHeldTimer]
  cases hh : s.heldTimer <;> simp [hh] at h1 ⊢ <;> omega

theorem timerInv_handlePointerLeave (s : MState) (e : LeaveEvt)
    (h1 : s.livePending = (if s.heldTimer = true then 1 else 0)) :
    TimerInv (handlePointerLeave s e) := by
  have hc := timerInv_clearHeldTimer s h1
  obtain ⟨hc1, hc2⟩ := hc
  simp only [handlePointerLeave]
  split_ifs with hA hB
  · exact ⟨hc1, fun hh => absurd hh (by simp [clearHeldTimer, closeDialogEffects])⟩
  · exact ⟨hc1, hc2⟩
  · exact ⟨hc1, hc2⟩

theorem timerInv_step (s : MState) (e : Ev) (h : TimerInv s)
    (hd : isDismiss e = true → s.heldTimer = false) : TimerInv (step s e) := by
  obtain ⟨h1, h2⟩ := h
  cases e with
  | pointerenter =>
    cases hin : s.pointerInside with
    | true => simp [step, hin]; exact ⟨h1, h2⟩
    | false =>
      have hheld : s.heldTimer = false := by
        cases hh : s.heldTimer
        · rfl
        · rw [(h2 hh).1] at hin; exact absurd hin (by simp)
      have h10 : s.livePending = 0 := by rw [h1, hheld]; rfl
      cases heh : s.enterHandler with
      | true =>
        cases hop : s.dialogOpen with
        | true =>
          simp [step, hin, heh, pointerenterHandler, hop]
          exact ⟨h1, fun hh => ⟨rfl, (h2 hh).2⟩⟩
        | false =>
          simp [step, hin, heh, pointerenterHandler, hop]
          exact ⟨by simp [h10], fun _ => ⟨rfl, rfl⟩⟩
      | false =>
        simp [step, hin, heh]
        exact ⟨h1, fun hh => ⟨rfl, (h2 hh).2⟩⟩
  | pointerleave e =>
    cases hin : s.pointerInside with
    | false => simp [step, hin]; exact ⟨h1, h2⟩
    | true =>
      cases hl : s.leaveListener with
      | true =>
        simp [step, hin, hl]
        exact timerInv_handlePointerLeave _ e h1
      | false =>
        have hheld : s.heldTimer = false := by
          cases hh : s.heldTimer
          · rfl
          · rw [(h2 hh).2] at hl; exact absurd hl (by simp)
        simp [step, hin, hl]
        exact ⟨h1, fun hh => absurd hh (by simp [hheld])⟩
  | dialogLeave e =>
    cases hdl : s.dialogLeaveListener with
    | true =>
      simp [step, hdl]
      exact timerInv_handlePointerLeave s e h1
    | false => simp [step, hdl]; exact ⟨h1, h2⟩
  | timerFire =>
    cases hh : s.heldTimer with
    | true =>
      have h11 : s.livePending = 1 := by rw [h1, hh]; rfl
      simp [step, hh, timerFireEffects]
      exact ⟨by simp [h11], fun hc => absurd hc (by simp)⟩
    | false => simp [step, hh]; exact ⟨h1, h2⟩
  | staleFire =>
    have hng : ¬(s.livePending > (if s.heldTimer = true then 1 else 0)) := by
      rw [h1]
      exact lt_irrefl _
    simp [step, hng]
    exact ⟨h1, h2⟩
  | settleFires =>
    cases hw : s.showWaiting with
    | true =>
      simp [step, hw, settleEffects]
      exact ⟨h1, fun hh => ⟨(h2 hh).1, (h2 hh).2⟩⟩
    | false => simp [step, hw]; exact ⟨h1, h2⟩
  | dismiss =>
    have hheld : s.heldTimer = false := hd rfl
    cases hb : s.bodyListeners with
    | true =>
      simp [step, hb, closeDialogEffects]
      exact ⟨h1, fun hh => absurd hh (by simp [hheld])⟩
    | false => simp [step, hb]; exact ⟨h1, h2⟩

theorem timerInv_run (evs : List Ev) (s : MState) (h : TimerInv s)
    (hb : benignFrom s evs = true) : TimerInv (run evs s) := by
  induction evs generalizing s with
  | nil => exact h
  | cons e rest ih =>
    simp only [benignFrom, Bool.and_eq_true, Bool.or_eq_true, Bool.not_eq_eq_eq_not,
      Bool.not_true] at hb
    obtain ⟨hg, hrest⟩ := hb
    have hstep : TimerInv (step s e) := by
      refine timerInv_step s e h ?_
      intro hde
      rcases hg with hg | hg
      · rw [hde] at hg
        exact absurd hg (by simp)
      · simpa using hg
    exact ih (step s e) hstep hrest

theorem timerInv_initState : TimerInv initState := by
  constructor
  · rfl
  · intro hh
    exact absurd hh (by simp [initState])

/-- No event ever changes the stored pointerenter handler: only
`#removeDesktopListeners` / `#setupDesktopListeners` (breakpoint or lifecycle
changes, outside the event alphabet) touch it. -/
theorem enterHandler_step (s : MState) (e : Ev) :
    (step s e).enterHandler = s.enterHandler := by
  cases e <;>
    simp only [step, pointerenterHandler, handlePointerLeave, clearHeldTimer,
      closeDialogEffects, timerFireEffects, settleEffects] <;>
    split_ifs <;> rfl

theorem enterHandler_run (evs : List Ev) :
    (run evs initState).enterHandler = true := by
  suffices hgen : ∀ s : MState, (run evs s).enterHandler = s.enterHandler by
    rw [hgen initState]; rfl
  induction evs with
  | nil => intro s; rfl
  | cons e rest ih =>
    intro s
    show (run rest (step s e)).enterHandler = s.enterHandler
    rw [ih (step s e), enterHandler_step]

/-- Pointer-leave payload used in the concrete traces: the pointer leaves
the trigger and does not move onto the dialog. -/
def leaveAway : LeaveEvt := ⟨true, false, false, false⟩

/-- Hover then leave before the 120ms timeout fires: the dialog is not open,
so `#handlePointerLeave` returns right after clearing the timer. -/
def pendingState : MState := run [Ev.pointerenter] initState

/-- C6 as stated is false on the listener part: entering attaches the
pointer-leave listener and schedules the timer; leaving the trigger before
the timer fires (dialog not open) cancels the pending timer, but
`#handlePointerLeave` (lines 217-239) contains no `removeEventListener` —
the pointer-leave listener stays attached after the pending-to-idle
transition. -/
theorem pending_leave_counterexample :
    pendingState.heldTimer = true
    ∧ pendingState.leaveListener = true
    ∧ (step pendingState (Ev.pointerleave leaveAway)).heldTimer = false
    ∧ (step pendingState (Ev.pointerleave leaveAway)).livePending = 0
    ∧ (step pendingState (Ev.pointerleave leaveAway)).leaveListener = true :=
  ⟨rfl, rfl, rfl, rfl, rfl⟩

/-- C6 amended: the pending-to-idle transition (pointer leaves the trigger
with the leave listener attached, before the delay fires, overlay not open)
cancels the pending timer; the pointer-leave listener registered at
pointer-enter is NOT removed there — it stays attached until `closeDialog`
or the desktop-listener teardown removes it. -/
theorem pending_leave_cancels_timer (s : MState) (e : LeaveEvt)
    (hopen : s.dialogOpen = false) (hin : s.pointerInside = true)
    (hl : s.leaveListener = true) :
    (step s (Ev.pointerleave e)).heldTimer = false
    ∧ (step s (Ev.pointerleave e)).livePending
        = s.livePending - (if s.heldTimer = true then 1 else 0)
    ∧ (step s (Ev.pointerleave e)).leaveListener = true := by
  simp [step, hin, hl, handlePointerLeave, clearHeldTimer, hopen]

/-- Witness for C6 amended, at the reachable state right after a
pointer-enter. -/
theorem pending_leave_cancels_timer_witness :
    (step pendingState (Ev.pointerleave leaveAway)).heldTimer = false
    ∧ (step pendingState (Ev.pointerleave leaveAway)).livePending
        = pendingState.livePending - (if pendingState.heldTimer = true then 1 else 0)
    ∧ (step pendingState (Ev.pointerleave leaveAway)).leaveListener = true :=
  pending_leave_cancels_timer pendingState leaveAway rfl rfl rfl

/-- The interleaving that breaks the single-pending-timer claim: hover until
the timer fires; while `showDialog` awaits the placement settle delay the
pointer leaves and re-enters (the dialog is not open yet, so a second
timeout is scheduled); the settle delay resolves and the dialog is shown;
an outside click dismisses it — `closeDialog` removes the trigger's
pointer-leave listener but never clears `this.timer` (lines 258-272); the
pointer then leaves (no listener: the pending timeout survives) and
re-enters: line 56 overwrites `this.timer` with a new timeout while the old
one is still pending. -/
def anomalyEvents : List Ev :=
  [Ev.pointerenter, Ev.timerFire, Ev.pointerleave leaveAway, Ev.pointerenter,
    Ev.settleFires, Ev.dismiss, Ev.pointerleave leaveAway, Ev.pointerenter]

/-- C7 as stated is false: after the `anomalyEvents` interleaving of
pointer-enter, pointer-leave, timer-fire and dismissal events, two
hover-intent timeouts are pending for the one trigger at the same time. -/
theorem single_timer_counterexample :
    (run anomalyEvents initState).livePending = 2 := rfl

/-- C7 amended: along every benign trace (no light dismissal delivered while
a hover-intent timeout is pending — the interleaving of the counterexample),
at most one hover-intent timeout is pending at any time; and a pointer-enter
that occurs while the overlay is open schedules no timer and changes no
listener state (opening while open is idempotent). -/
theorem single_timer_invariant (evs : List Ev) (s : MState)
    (hb : benignFrom initState evs = true) (hopen : s.dialogOpen = true) :
    (run evs initState).livePending ≤ 1
    ∧ (step s Ev.pointerenter).livePending = s.livePending
    ∧ (step s Ev.pointerenter).heldTimer = s.heldTimer
    ∧ (step s Ev.pointerenter).leaveListener = s.leaveListener
    ∧ (step s Ev.pointerenter).enterHandler = s.enterHandler := by
  have hinv := timerInv_run evs initState timerInv_initState hb
  refine ⟨?_, ?_, ?_, ?_, ?_⟩
  · rw [hinv.1]
    cases (run evs initState).heldTimer <;> simp
  all_goals
    cases hin : s.pointerInside <;>
      cases heh : s.enterHandler <;>
        simp [step, hin, heh, pointerenterHandler, hopen]

/-- A reachable-shaped state with the overlay open. -/
def openState : MState :=
  { pointerInside := true
    dialogOpen := true
    showing := true
    closing := false
    enterHandler := true
    leaveListener := true
    dialogLeaveListener := true
    bodyListeners := true
    heldTimer := false
    livePending := 0
    showWaiting := false }

/-- Witness for C7 amended: a concrete benign trace and a concrete open
state. -/
theorem single_timer_invariant_witness :
    (run [Ev.pointerenter, Ev.timerFire] initState).livePending ≤ 1
    ∧ (step openState Ev.pointerenter).livePending = openState.livePending
    ∧ (step openState Ev.pointerenter).heldTimer = openState.heldTimer
    ∧ (step openState Ev.pointerenter).leaveListener = openState.leaveListener
    ∧ (step openState Ev.pointerenter).enterHandler = openState.enterHandler :=
  single_timer_invariant [Ev.pointerenter, Ev.timerFire] openState rfl rfl

/-- C8 as stated is false on the "clears any pending timer" part: in the
state reached by `anomalyEvents` a hover-intent timeout is held pending, and
after the breakpoint change to mobile one hover-intent timeout is STILL
pending in the runtime — `#removeDesktopListeners` clears only the held
`this.timer` handle (lines 79-82), and the handle-lost timeout orphaned by
the dismissal survives the crossing and will fire. -/
theorem breakpoint_counterexample :
    (run anomalyEvents initState).heldTimer = true
    ∧ (handleBreakpointChange true (run anomalyEvents initState)).livePending = 1 :=
  ⟨rfl, rfl⟩

/-- C8 amended: on a breakpoint-change event the component first unwires the
hover listeners and clears its held hover-intent timer, then rewires the
hover listeners exactly when the new viewport is desktop-sized; along benign
traces (no dismissal while a timeout is pending) the held timer is the only
pending one, so crossing to mobile leaves zero pending hover-intent
timeouts — no timer can fire after the crossing. -/
theorem breakpoint_teardown (evs : List Ev)
    (hb : benignFrom initState evs = true) :
    (handleBreakpointChange true (run evs initState)).livePending = 0
    ∧ (handleBreakpointChange true (run evs initState)).heldTimer = false
    ∧ (handleBreakpointChange true (run evs initState)).enterHandler = false
    ∧ (handleBreakpointChange true (run evs initState)).leaveListener = false
    ∧ (handleBreakpointChange false (run evs initState)).livePending = 0
    ∧ (handleBreakpointChange false (run evs initState)).heldTimer = false
    ∧ (handleBreakpointChange false (run evs initState)).enterHandler = true := by
  have h1 := (timerInv_run evs initState timerInv_initState hb).1
  have he := enterHandler_run evs
  cases hh : (run evs initState).heldTimer with
  | true =>
    have h1p : (run evs initState).livePending = 1 := by rw [h1, hh]; rfl
    simp [handleBreakpointChange, removeDesktopListeners, setupDesktopListeners,
      clearHeldTimer, hh, he, h1p]
  | false =>
    have h1p : (run evs initState).livePending = 0 := by rw [h1, hh]; rfl
    simp [handleBreakpointChange, removeDesktopListeners, setupDesktopListeners,
      clearHeldTimer, hh, he, h1p]

/-- Witness for C8 amended at a concrete benign trace with a pending
hover-intent timer. -/
theorem breakpoint_teardown_witness :
    (handleBreakpointChange true (run [Ev.pointerenter] initState)).livePending = 0
    ∧ (handleBreakpointChange true (run [Ev.pointerenter] initState)).heldTimer = false
    ∧ (handleBreakpointChange true (run [Ev.pointerenter] initState)).enterHandler = false
    ∧ (handleBreakpointChange true (run [Ev.pointerenter] initState)).leaveListener = false
    ∧ (handleBreakpointChange false (run [Ev.pointerenter] initState)).livePending = 0
    ∧ (handleBreakpointChange false (run [Ev.pointerenter] initState)).heldTimer = false
    ∧ (handleBreakpointChange false (run [Ev.pointerenter] initState)).enterHandler = true :=
  breakpoint_teardown [Ev.pointerenter] rfl

/-! ### Guard-complete listener wiring over possibly-absent references

The machine definitions above assume the trigger and dialog are present.
These are the same source functions with their missing-reference guards kept
explicit; on present references they agree with the machine versions
definitionally. -/

/-- `#setupDesktopListeners` (lines 46-64) including the line 50 guard:
`if (!trigger || !dialog) return;` — nothing is wired unless both the
trigger and a dialog are present.  `setupDesktopListenersOpt true true`
is `setupDesktopListeners`. -/
def setupDesktopListenersOpt (hasTrigger hasDialog : Bool) (s : MState) : MState :=
  if hasTrigger && hasDialog then setupDesktopListeners s else s

/-- `#removeDesktopListeners` (lines 70-83) including the line 73 guard:
the two `removeEventListener` calls and the handler reset run only when the
trigger is present and a handler is stored; the held timeout is cleared
regardless (lines 79-82), and nothing throws.  `removeDesktopListenersOpt
true` is `removeDesktopListeners`. -/
def removeDesktopListenersOpt (hasTrigger : Bool) (s : MState) : MState :=
  let s1 :=
    if hasTrigger && s.enterHandler then
      { s with enterHandler := false, leaveListener := false }
    else s
  clearHeldTimer s1

/-- `#handlePointerLeave` (lines 217-239) including the absent-dialog case
of the line 227 guard `if (!dialog || !dialog.open) return;`: the timer is
cleared first (lines 222-225) and with no dialog the handler then returns
silently.  `handlePointerLeaveOpt true` is `handlePointerLeave`. -/
def handlePointerLeaveOpt (hasDialog : Bool) (s : MState) (e : LeaveEvt) : MState :=
  let s1 := clearHeldTimer s
  if hasDialog && s1.dialogOpen then
    if (e.leavingTrigger && !e.goingToDialog) || (e.leavingDialog && !e.goingToTrigger) then
      closeDialogEffects s1
    else s1
  else s1

/-- C5 amended: every operation degrades silently and never throws on absent
references, except at placement time.  `showDialog`, both phases of
`closeDialog`, and the two light-dismiss handlers are silent no-ops when the
dialog is absent; listener setup is a no-op unless both trigger and dialog
are present; listener teardown skips the listener removal when the trigger
is absent but still clears the pending timer, and it always leaves no held
timer; the pointer-leave handler with no dialog clears the timer and
otherwise no-ops.  At placement time only the container is guarded: a
missing container makes the computation return early without touching the
dialog — but `showDialog` then still shows the overlay, with its placement
state unchanged rather than freshly computed — while a missing trigger
faults (throws) instead of no-oping, again without touching the dialog. -/
theorem missing_refs_degradation :
    (∀ (copt topt : Option Rect) (s : ShowState) (w h : ℚ), s.dialog = none →
        showDialogRun copt topt s w h = (ShowOutcome.noDialog, s))
    ∧ (∀ s : ShowState, s.dialog = none →
        closeDialogPre s = s ∧ closeDialogPost s = s)
    ∧ (∀ (clickedOutside : Bool) (s : ShowState), s.dialog = none →
        lightDismissMouse clickedOutside s = s)
    ∧ (∀ (e : KeyEvt) (dialogHasFocus : Bool) (s : ShowState), s.dialog = none →
        lightDismissKeyboard e dialogHasFocus s = s)
    ∧ (∀ (topt : Option Rect) (dopt : Option DialogEl) (w h : ℚ),
        calculateDialogPlacementRun none topt dopt w h
          = ⟨CalcOutcome.earlyReturn, dopt⟩)
    ∧ (∀ (c : Rect) (dopt : Option DialogEl) (w h : ℚ),
        calculateDialogPlacementRun (some c) none dopt w h
          = ⟨CalcOutcome.thrown, dopt⟩)
    ∧ (∀ (topt : Option Rect) (s : ShowState) (d : DialogEl) (w h : ℚ),
        s.dialog = some d →
          (showDialogRun none topt s w h).1 = ShowOutcome.shown
          ∧ ((showDialogRun none topt s w h).2.dialog.map DialogEl.isOpen) = some true
          ∧ ((showDialogRun none topt s w h).2.dialog.map DialogEl.placement)
              = some d.placement)
    ∧ (∀ (hasTrigger hasDialog : Bool) (s : MState),
        hasTrigger = false ∨ hasDialog = false →
          setupDesktopListenersOpt hasTrigger hasDialog s = s)
    ∧ (∀ s : MState, removeDesktopListenersOpt false s = clearHeldTimer s)
    ∧ (∀ (hasTrigger : Bool) (s : MState),
        (removeDesktopListenersOpt hasTrigger s).heldTimer = false)
    ∧ (∀ (s : MState) (e : LeaveEvt),
        handlePointerLeaveOpt false s e = clearHeldTimer s) := by
  refine ⟨?_, ?_, ?_, ?_, fun _ _ _ _ => rfl, fun _ _ _ _ => rfl, ?_, ?_,
    fun _ => rfl, fun _ _ => rfl, fun _ _ => rfl⟩
  · intro copt topt s w h hs
    obtain ⟨sd, b1, b2, b3, b4⟩ := s
    simp only at hs
    subst hs
    rfl
  · intro s hs
    obtain ⟨sd, b1, b2, b3, b4⟩ := s
    simp only at hs
    subst hs
    exact ⟨rfl, rfl⟩
  · intro b s hs
    obtain ⟨sd, b1, b2, b3, b4⟩ := s
    simp only at hs
    subst hs
    rfl
  · intro e f s hs
    obtain ⟨sd, b1, b2, b3, b4⟩ := s
    simp only at hs
    subst hs
    rfl
  · intro topt s d w h hs
    obtain ⟨sd, b1, b2, b3, b4⟩ := s
    simp only at hs
    subst hs
    exact ⟨rfl, rfl, rfl⟩
  · intro hasTrigger hasDialog s hguard
    rcases hguard with hg | hg <;> simp [setupDesktopListenersOpt, hg]

/-- Witness for C5 amended: the missing-dialog no-ops of show and the
keyboard dismissal handler, the early-return of a missing container, and the
timer-clearing no-op of the pointer-leave handler without a dialog, all at
concrete inputs. -/
theorem missing_refs_degradation_witness :
    showDialogRun none none ⟨none, false, false, false, false⟩ 100 50
      = (ShowOutcome.noDialog, ⟨none, false, false, false, false⟩)
    ∧ lightDismissKeyboard ⟨true, true⟩ false ⟨none, false, false, false, false⟩
      = ⟨none, false, false, false, false⟩
    ∧ calculateDialogPlacementRun none none none 100 50
      = ⟨CalcOutcome.earlyReturn, none⟩
    ∧ handlePointerLeaveOpt false pendingState leaveAway = clearHeldTimer pendingState :=
  ⟨missing_refs_degradation.1 none none ⟨none, false, false, false, false⟩ 100 50 rfl,
    missing_refs_degradation.2.2.2.1 ⟨true, true⟩ false
      ⟨none, false, false, false, false⟩ rfl,
    missing_refs_degradation.2.2.2.2.1 none none 100 50,
    missing_refs_degradation.2.2.2.2.2.2.2.2.2.2 pendingState leaveAway⟩

end ProductHotspot
